import Mathlib

/-!
Verification of the `@coffic/key-listener` package: a shallow embedding of
the native macOS key-listener core (`packages/core/native/key_listener.mm`)
and of the TypeScript wrapper (`packages/core/src/index.ts`), with theorems
about the event-normalization, deduplication and lifecycle behaviour.

Machine integers (key codes, modifier bitmasks) are modelled as `Nat`;
`NSTimeInterval` timestamps (doubles holding seconds) are modelled as `ℤ`
in microseconds, so the duplicate-window comparison of the source
`currentTime - lastEventTime < 0.01` becomes a comparison against
`dupWindow = 10000` microseconds.
-/

namespace KeyListenerModel

/-- AppKit modifier-flag bit: `NSEventModifierFlagShift` (1 << 17). -/
def NSEventModifierFlagShift : Nat := 2 ^ 17

/-- AppKit modifier-flag bit: `NSEventModifierFlagControl` (1 << 18). -/
def NSEventModifierFlagControl : Nat := 2 ^ 18

/-- AppKit modifier-flag bit: `NSEventModifierFlagOption` (1 << 19). -/
def NSEventModifierFlagOption : Nat := 2 ^ 19

/-- AppKit modifier-flag bit: `NSEventModifierFlagCommand` (1 << 20). -/
def NSEventModifierFlagCommand : Nat := 2 ^ 20

/-- The kinds of `NSEvent` the two monitors deliver (mask
`NSEventMaskKeyDown | NSEventMaskFlagsChanged`); `keyUp` is included so that
sequences containing key-up transitions can be expressed. -/
inductive NSEventType where
  | keyDown
  | keyUp
  | flagsChanged
deriving DecidableEq, Repr

/-- The fields of an `NSEvent` that `SafeHandleKeyEvent` reads. -/
structure NSEvent where
  keyCode : Nat
  type : NSEventType
  timestamp : ℤ
  modifierFlags : Nat
deriving DecidableEq, Repr

/-- The global `state` struct of `key_listener.mm`.  `tsfn` is modelled by
the boolean `hasTsfn` (whether the thread-safe function reference is live),
and the two monitor handles by booleans (whether each is registered). -/
structure NativeState where
  isListening : Bool
  hasTsfn : Bool
  localMonitor : Bool
  globalMonitor : Bool
  lastEventTime : ℤ
  lastModifierFlags : Nat
deriving DecidableEq, Repr

/-- The state set up by the module `Init` function. -/
def initState : NativeState :=
  { isListening := false
    hasTsfn := false
    localMonitor := false
    globalMonitor := false
    lastEventTime := 0
    lastModifierFlags := 0 }

/-- Source helper `isModifierKeyPressed(flags, mask)`: `(flags & mask) == mask`. -/
def isModifierKeyPressed (flags mask : Nat) : Bool :=
  flags &&& mask == mask

/-- The `switch (event.keyCode)` of `SafeHandleKeyEvent` mapping a modifier
key code to its `NSEventModifierFlag` mask; `none` is the `default:` branch
(return without emitting). -/
def modifierMaskFor (keyCode : Nat) : Option Nat :=
  if keyCode = 54 ∨ keyCode = 55 then some NSEventModifierFlagCommand
  else if keyCode = 56 ∨ keyCode = 60 then some NSEventModifierFlagShift
  else if keyCode = 58 ∨ keyCode = 61 then some NSEventModifierFlagOption
  else if keyCode = 59 ∨ keyCode = 62 then some NSEventModifierFlagControl
  else none

/-- The test `event.keyCode >= 54 && event.keyCode <= 63` of the source. -/
def isModifierKeyCode (keyCode : Nat) : Bool :=
  54 ≤ keyCode && keyCode ≤ 63

/-- The payload handed to the JS callback (`KeyEventData`, forwarded as the
`keypress` object `{keyCode, modifierFlags}`). -/
structure KeyEventData where
  keyCode : Nat
  modifierFlags : Nat
deriving DecidableEq, Repr

/-- The duplicate-event window of the source: `0.01` seconds, i.e. 10000
microseconds in the time unit of this model. -/
def dupWindow : ℤ := 10000

/-- Source function `SafeHandleKeyEvent`, as a pure transition: given the global state and
one `NSEvent`, return the updated state together with the `KeyEventData`
posted through the thread-safe function (`none` when nothing is emitted). -/
def SafeHandleKeyEvent (s : NativeState) (event : NSEvent) :
    NativeState × Option KeyEventData :=
  if ¬s.isListening ∨ ¬s.hasTsfn then
    (s, none)
  else if isModifierKeyCode event.keyCode then
    -- modifier keys: only FlagsChanged events are handled
    if event.type ≠ NSEventType.flagsChanged then
      (s, none)
    else
      match modifierMaskFor event.keyCode with
      | none => (s, none)
      | some modifierMask =>
        let wasPressed := isModifierKeyPressed s.lastModifierFlags modifierMask
        let isPressed := isModifierKeyPressed event.modifierFlags modifierMask
        let s' := { s with lastModifierFlags := event.modifierFlags }
        if ¬wasPressed ∧ isPressed then
          (s', some ⟨event.keyCode, event.modifierFlags⟩)
        else
          (s', none)
  else
    -- regular keys: only KeyDown events are handled
    if event.type ≠ NSEventType.keyDown then
      (s, none)
    else if event.timestamp - s.lastEventTime < dupWindow then
      (s, none)
    else
      ({ s with lastEventTime := event.timestamp },
        some ⟨event.keyCode, event.modifierFlags⟩)

/-- Run `SafeHandleKeyEvent` over a sequence of events, collecting every
emitted `KeyEventData` in order. -/
def processEvents (s : NativeState) : List NSEvent → NativeState × List KeyEventData
  | [] => (s, [])
  | e :: es =>
    let r := SafeHandleKeyEvent s e
    let rest := processEvents r.1 es
    (rest.1, r.2.toList ++ rest.2)

/-- Outcome of a native call as seen from JavaScript: a returned value, or a
thrown `Napi::Error` (`ThrowAsJavaScriptException`). -/
inductive NapiResult (α : Type) where
  | ok : α → NapiResult α
  | thrown : NapiResult α
deriving DecidableEq, Repr

/-- Native `Start`.  The behaviour of the environment is supplied as oracles:
`regLocal` / `regGlobal` say whether `addLocalMonitorForEventsMatchingMask` /
`addGlobalMonitorForEventsMatchingMask` return a non-nil monitor.  Mirrors
the source: early-return `true` when already listening; otherwise create the
thread-safe function, reset `lastEventTime` and `lastModifierFlags`, install
both monitors, and on any registration failure remove whichever monitor was
created, release the thread-safe function and throw. -/
def nativeStart (regLocal regGlobal : Bool) (s : NativeState) :
    NativeState × NapiResult Bool :=
  if s.isListening then
    (s, .ok true)
  else
    let s1 := { s with
      hasTsfn := true
      lastEventTime := 0
      lastModifierFlags := 0
      localMonitor := regLocal
      globalMonitor := regGlobal }
    if ¬s1.localMonitor ∨ ¬s1.globalMonitor then
      ({ s1 with localMonitor := false, globalMonitor := false, hasTsfn := false },
        .thrown)
    else
      ({ s1 with isListening := true }, .ok true)

/-- Where, if anywhere, the teardown body of native `Stop` raises an
`NSException`: nowhere (the teardown completes), during the local-monitor
removal (nothing torn down yet), during the global-monitor removal (the
local monitor already removed and nil-ed), or during the thread-safe
function release (both monitors already removed).  The `@catch` block of
the source rethrows to JavaScript without reaching
`state.isListening = false`, so every raising trace leaves the native
state partially torn down and still marked listening. -/
inductive StopRaise where
  | noRaise
  | atLocalRemove
  | atGlobalRemove
  | atTsfnRelease
deriving DecidableEq, Repr

/-- Native `Stop`.  The oracle `r` selects the trace of the teardown body:
on the non-raising trace both monitors are removed, the thread-safe
function is released and `isListening` is cleared; on a raising trace the
field updates preceding the raise point persist and everything after it —
`state.isListening = false` included — never runs. -/
def nativeStop (r : StopRaise) (s : NativeState) : NativeState × NapiResult Bool :=
  if ¬s.isListening then
    (s, .ok true)
  else
    match r with
    | StopRaise.noRaise =>
      ({ s with
          localMonitor := false
          globalMonitor := false
          hasTsfn := false
          isListening := false },
        .ok true)
    | StopRaise.atLocalRemove => (s, .thrown)
    | StopRaise.atGlobalRemove => ({ s with localMonitor := false }, .thrown)
    | StopRaise.atTsfnRelease =>
      ({ s with localMonitor := false, globalMonitor := false }, .thrown)

/-- Native `IsListening`. -/
def nativeIsListening (s : NativeState) : Bool :=
  s.isListening

/-- The `KeyListener` wrapper object of `packages/core/src/index.ts`:
`_isListening` plus the (possibly absent) loaded native module, whose global
state we carry alongside. -/
structure TSListener where
  tsIsListeningFlag : Bool
  nativeModule : Option NativeState
deriving DecidableEq, Repr

/-- The `KeyListener` constructor: on a non-darwin platform the native
module is never loaded (`_nativeModule = null`); on darwin,
`loadNativeModule()` either finds the `.node` binary (yielding its `Init`
state) or returns `null` — `found` is the oracle for that search. -/
def mkKeyListener (platformIsDarwin found : Bool) : TSListener :=
  if platformIsDarwin then
    { tsIsListeningFlag := false
      nativeModule := if found then some initState else none }
  else
    { tsIsListeningFlag := false, nativeModule := none }

/-- Wrapper method `KeyListener.start()`.  Returns the resolved boolean; the try/catch
turns a thrown native error into `false` without touching `_isListening`. -/
def tsStart (regLocal regGlobal : Bool) (l : TSListener) : TSListener × Bool :=
  if l.tsIsListeningFlag then
    (l, true)
  else
    match l.nativeModule with
    | none => (l, false)
    | some ns =>
      match nativeStart regLocal regGlobal ns with
      | (ns', .ok success) =>
        ({ l with tsIsListeningFlag := success, nativeModule := some ns' }, success)
      | (ns', .thrown) =>
        ({ l with nativeModule := some ns' }, false)

/-- Wrapper method `KeyListener.stop()`.  The catch branch logs, still clears
`_isListening`, and returns `false`. -/
def tsStop (r : StopRaise) (l : TSListener) : TSListener × Bool :=
  if ¬l.tsIsListeningFlag then
    (l, true)
  else
    match l.nativeModule with
    | some ns =>
      match nativeStop r ns with
      | (ns', .ok success) =>
        ({ l with tsIsListeningFlag := false, nativeModule := some ns' }, success)
      | (ns', .thrown) =>
        ({ l with tsIsListeningFlag := false, nativeModule := some ns' }, false)
    | none => ({ l with tsIsListeningFlag := false }, true)

/-- Wrapper method `KeyListener.isListening()`. -/
def tsIsListening (l : TSListener) : Bool :=
  l.tsIsListeningFlag

/-- The native state right after a successful `Start` from the `Init`
state: listening, both monitors registered, thread-safe function live,
`lastEventTime` and `lastModifierFlags` reset to zero. -/
def startedState : NativeState :=
  (nativeStart true true initState).1

/-- A wrapper that was constructed on darwin with the module found and then
successfully started. -/
def startedWrapper : TSListener :=
  (tsStart true true (mkKeyListener true true)).1

/-- An operation invoked on the public `KeyListener` surface, with the
oracles describing how the OS would answer. -/
inductive TSOp where
  | start (regLocal regGlobal : Bool)
  | stop (r : StopRaise)
deriving DecidableEq, Repr

/-- Run a sequence of public operations, collecting the boolean
result of each call in order. -/
def runOps (l : TSListener) : List TSOp → TSListener × List Bool
  | [] => (l, [])
  | op :: ops =>
    let r := match op with
      | TSOp.start a b => tsStart a b l
      | TSOp.stop a => tsStop a l
    let rest := runOps r.1 ops
    (rest.1, r.2 :: rest.2)

/-- Spec-side definition, following the words of the specification rather than
the source (for comparison with `processEvents`): the number of
KeyPressEvents the spec requires for a regular-key down/up sequence — the
number of down transitions that followed a prior up transition or no prior
transition for that key.  The first argument accumulates the keys currently
held down. -/
def specExpectedPressCount (held : List Nat) : List NSEvent → Nat
  | [] => 0
  | e :: es =>
    match e.type with
    | NSEventType.keyDown =>
      if e.keyCode ∈ held then specExpectedPressCount held es
      else specExpectedPressCount (e.keyCode :: held) es + 1
    | NSEventType.keyUp => specExpectedPressCount (held.erase e.keyCode) es
    | NSEventType.flagsChanged => specExpectedPressCount held es

/-! ## Theorems about the claims -/

/-- C1: the specification requires that, for regular keys, the number of
emitted KeyPressEvents equal the number of down transitions that followed a
prior up transition or no prior transition (so a held key emits exactly
once).  The code keeps no per-key press state: for two down transitions of
key 0 that are 20 ms apart with no intervening up transition it emits two
KeyPressEvents, while the spec-side count is one.  This contradicts the
package README ("Holding down a key does not trigger repeated events"), so
the code, not the claim, is at fault. -/
theorem C1_held_regular_key_emits_twice :
    (processEvents startedState
        [⟨0, NSEventType.keyDown, 20000, 0⟩,
         ⟨0, NSEventType.keyDown, 40000, 0⟩]).2.length = 2 ∧
    specExpectedPressCount []
        [⟨0, NSEventType.keyDown, 20000, 0⟩,
         ⟨0, NSEventType.keyDown, 40000, 0⟩] = 1 := by
  decide

/-- C2: while listening, a flags-changed transition for a modifier key code
emits a KeyPressEvent iff the modifier bit the switch associates with that
key code transitions from 0 to 1 relative to the recorded
`lastModifierFlags`; a 1-to-0 transition or an unchanged bit emits nothing
(and key codes the switch does not map never emit). -/
theorem C2_modifier_emits_iff_bit_rises (s : NativeState) (e : NSEvent)
    (hl : s.isListening = true) (ht : s.hasTsfn = true)
    (hk : isModifierKeyCode e.keyCode = true)
    (hty : e.type = NSEventType.flagsChanged) :
    (SafeHandleKeyEvent s e).2.isSome = true ↔
      ∃ m, modifierMaskFor e.keyCode = some m ∧
        isModifierKeyPressed s.lastModifierFlags m = false ∧
        isModifierKeyPressed e.modifierFlags m = true := by
  simp only [SafeHandleKeyEvent, hl, ht, hk, hty, not_true, or_self, if_false,
    if_true, ne_eq, not_false_iff]
  cases hm : modifierMaskFor e.keyCode with
  | none => simp [hm]
  | some m =>
    simp only [hm, Option.some.injEq]
    split
    · rename_i h
      simp only [Option.isSome_some, true_iff]
      exact ⟨m, rfl, by simpa using h.1, h.2⟩
    · rename_i h
      simp only [Option.isSome_none, Bool.false_eq_true, false_iff]
      rintro ⟨m', hm', hwas, his⟩
      cases hm'
      exact h ⟨by simp [hwas], his⟩

/-- Witness for C2 at a concrete input: pressing left Shift (key code 56)
with the Shift bit rising from the started state. -/
theorem C2_modifier_emits_iff_bit_rises_witness :
    (SafeHandleKeyEvent startedState
        ⟨56, NSEventType.flagsChanged, 0, NSEventModifierFlagShift⟩).2.isSome = true ↔
      ∃ m, modifierMaskFor 56 = some m ∧
        isModifierKeyPressed startedState.lastModifierFlags m = false ∧
        isModifierKeyPressed NSEventModifierFlagShift m = true :=
  C2_modifier_emits_iff_bit_rises startedState
    ⟨56, NSEventType.flagsChanged, 0, NSEventModifierFlagShift⟩
    (by decide) (by decide) (by decide) rfl

/-- C3 counterexample: the claim says every transition (regular-key down/up
or modifier flags-changed) arriving within the 10 ms window of the
previously accepted transition is dropped unconditionally.  In the code the
window is only consulted in the regular-key branch: a Shift flags-changed
transition 5 ms after an accepted regular-key down is still emitted, so two
transitions within the window produce two events. -/
theorem C3_counterexample_modifier_in_window_emits :
    (processEvents startedState
        [⟨0, NSEventType.keyDown, 20000, 0⟩,
         ⟨56, NSEventType.flagsChanged, 25000, NSEventModifierFlagShift⟩]).2 =
      [⟨0, 0⟩, ⟨56, NSEventModifierFlagShift⟩] := by
  decide

/-- C3 (amended): only regular-key keyDown transitions are subject to the
duplicate guard: a regular-key down transition arriving within the 10 ms
window of the previously accepted regular-key event is dropped
unconditionally (no event, no state change), whatever its key identifier;
modifier flags-changed transitions are not governed by the window. -/
theorem C3_amended_regular_down_in_window_dropped (s : NativeState) (e : NSEvent)
    (hk : isModifierKeyCode e.keyCode = false)
    (hty : e.type = NSEventType.keyDown)
    (hw : e.timestamp - s.lastEventTime < dupWindow) :
    SafeHandleKeyEvent s e = (s, none) := by
  unfold SafeHandleKeyEvent
  split
  · rfl
  · simp [hk, hty, hw]

/-- Witness for C3 (amended): a down for key 1 arriving 5 ms after the
accepted down for key 0 is dropped. -/
theorem C3_amended_witness :
    SafeHandleKeyEvent
        (SafeHandleKeyEvent startedState ⟨0, NSEventType.keyDown, 20000, 0⟩).1
        ⟨1, NSEventType.keyDown, 25000, 0⟩ =
      ((SafeHandleKeyEvent startedState ⟨0, NSEventType.keyDown, 20000, 0⟩).1, none) :=
  C3_amended_regular_down_in_window_dropped _ _ (by decide) rfl (by decide)

/-- The started native state written out field by field. -/
theorem startedState_def :
    startedState = ⟨true, true, true, true, 0, 0⟩ := rfl

/-- Every mask produced by the key-code switch is positive. -/
theorem modifierMaskFor_pos {k m : Nat} (h : modifierMaskFor k = some m) :
    0 < m := by
  unfold modifierMaskFor at h
  split_ifs at h <;> (injection h with h; subst h; decide)

/-- Every key code the switch maps lies in the modifier key-code range. -/
theorem modifierMaskFor_code {k m : Nat} (h : modifierMaskFor k = some m) :
    isModifierKeyCode k = true := by
  unfold modifierMaskFor at h
  split_ifs at h with h1 h2 h3 h4
  · rcases h1 with h1 | h1 <;> subst h1 <;> decide
  · rcases h2 with h2 | h2 <;> subst h2 <;> decide
  · rcases h3 with h3 | h3 <;> subst h3 <;> decide
  · rcases h4 with h4 | h4 <;> subst h4 <;> decide

/-- The wrapper after the native handler has accepted a left-Shift press,
so the native press-tracking state records the Shift bit. -/
def wrapperAfterShiftPress : TSListener :=
  { startedWrapper with
      nativeModule := startedWrapper.nativeModule.map
        (fun ns => (SafeHandleKeyEvent ns
          ⟨56, NSEventType.flagsChanged, 20000, NSEventModifierFlagShift⟩).1) }

/-- C4 counterexample: the claim says stop() releases both OS monitors,
clears the press-tracking state and returns success even if an underlying
release call reports an error.  On a listening wrapper whose native state
records a Shift press, a stop() whose native teardown throws returns
`false` (reporting failure), leaves `lastModifierFlags` holding the Shift
bit, and leaves the local monitor registered. -/
theorem C4_counterexample_stop_reports_failure :
    (tsStop StopRaise.atLocalRemove wrapperAfterShiftPress).2 = false ∧
    (tsStop StopRaise.atLocalRemove wrapperAfterShiftPress).1.nativeModule.map
        NativeState.lastModifierFlags = some NSEventModifierFlagShift ∧
    (tsStop StopRaise.atLocalRemove wrapperAfterShiftPress).1.nativeModule.map
        NativeState.localMonitor = some true := by
  decide

/-- C4 (amended): after stop() returns, the public isListening() is always
false, and stop() on an already-idle wrapper is a no-op success; stop()
returns false exactly when the wrapper was listening, the native module is
present and listening, and the native teardown raises (whatever its raise
point); when the teardown does not raise, both OS monitors and the
thread-safe function are released and the native layer leaves listening —
while the press-tracking fields `lastEventTime` and `lastModifierFlags`
are preserved; indeed no trace of stop(), raising or not, ever changes the
press-tracking fields: they are reset to zero only by the next start()
whose registration runs (which, after a non-raising stop, the next start()
does). -/
theorem C4_amended_stop_best_effort (r : StopRaise) (l : TSListener) :
    tsIsListening (tsStop r l).1 = false ∧
    ((tsStop r l).2 = false ↔
      l.tsIsListeningFlag = true ∧ r ≠ StopRaise.noRaise ∧
        ∃ ns, l.nativeModule = some ns ∧ ns.isListening = true) ∧
    (∀ ns, l.nativeModule = some ns → l.tsIsListeningFlag = true →
      ns.isListening = true → r = StopRaise.noRaise →
      (tsStop r l).1.nativeModule =
        some { ns with
                localMonitor := false
                globalMonitor := false
                hasTsfn := false
                isListening := false }) ∧
    ((tsStop r l).1.nativeModule.map NativeState.lastEventTime =
        l.nativeModule.map NativeState.lastEventTime ∧
      (tsStop r l).1.nativeModule.map NativeState.lastModifierFlags =
        l.nativeModule.map NativeState.lastModifierFlags) ∧
    (∀ ns, l.nativeModule = some ns → l.tsIsListeningFlag = true →
      ns.isListening = true → r = StopRaise.noRaise →
      (tsStart true true (tsStop r l).1).1.nativeModule.map
          NativeState.lastEventTime = some 0 ∧
      (tsStart true true (tsStop r l).1).1.nativeModule.map
          NativeState.lastModifierFlags = some 0) := by
  obtain ⟨flag, nm⟩ := l
  cases flag with
  | false => simp [tsStop, tsIsListening]
  | true =>
    cases nm with
    | none => simp [tsStop, tsIsListening]
    | some ns =>
      cases hns : ns.isListening with
      | false =>
        cases r <;> simp [tsStop, tsIsListening, nativeStop, hns]
      | true =>
        cases r <;>
          simp [tsStop, tsIsListening, nativeStop, hns, tsStart, nativeStart]

/-- Witness for C4 (amended) at a concrete input: a non-raising stop() on
the started wrapper releases the monitors and the thread-safe function
while preserving the press-tracking fields, and the following start()
resets `lastEventTime` to zero. -/
theorem C4_amended_witness :
    (tsStop StopRaise.noRaise startedWrapper).1.nativeModule =
      some { startedState with
              localMonitor := false
              globalMonitor := false
              hasTsfn := false
              isListening := false } ∧
    (tsStart true true
        (tsStop StopRaise.noRaise startedWrapper).1).1.nativeModule.map
      NativeState.lastEventTime = some 0 :=
  ⟨(C4_amended_stop_best_effort StopRaise.noRaise startedWrapper).2.2.1
      startedState rfl rfl rfl rfl,
   ((C4_amended_stop_best_effort StopRaise.noRaise startedWrapper).2.2.2.2
      startedState rfl rfl rfl rfl).1⟩

/-- C5: when either monitor registration fails during start() on a
non-listening wrapper with the native module loaded, start() resolves
false, isListening() is false afterwards, and the native state is rolled
back: both monitors unregistered, the thread-safe function released, not
listening — no half-initialized state survives. -/
theorem C5_failed_start_rolls_back (regLocal regGlobal : Bool)
    (l : TSListener) (ns : NativeState)
    (hflag : l.tsIsListeningFlag = false)
    (hmod : l.nativeModule = some ns)
    (hns : ns.isListening = false)
    (hfail : regLocal = false ∨ regGlobal = false) :
    (tsStart regLocal regGlobal l).2 = false ∧
    tsIsListening (tsStart regLocal regGlobal l).1 = false ∧
    (tsStart regLocal regGlobal l).1.nativeModule =
      some { ns with
              hasTsfn := false
              lastEventTime := 0
              lastModifierFlags := 0
              localMonitor := false
              globalMonitor := false } := by
  obtain ⟨flag, nm⟩ := l
  simp only at hflag hmod
  subst hflag
  subst hmod
  rcases hfail with h | h <;> subst h <;>
    simp [tsStart, tsIsListening, nativeStart, hns]

/-- Witness for C5: on a freshly constructed darwin wrapper, a start()
whose global-monitor registration fails resolves false and rolls back. -/
theorem C5_failed_start_rolls_back_witness :
    (tsStart true false (mkKeyListener true true)).2 = false ∧
    tsIsListening (tsStart true false (mkKeyListener true true)).1 = false ∧
    (tsStart true false (mkKeyListener true true)).1.nativeModule =
      some { initState with
              hasTsfn := false
              lastEventTime := 0
              lastModifierFlags := 0
              localMonitor := false
              globalMonitor := false } :=
  C5_failed_start_rolls_back true false (mkKeyListener true true) initState
    rfl rfl rfl (Or.inr rfl)

/-- C6: stopping a listening wrapper and starting it again resets the
press-tracking state (`lastEventTime` and `lastModifierFlags`) to its
initial zero value, so nothing is suppressed after the restart: in the
restarted native state every regular-key down at least one window past time
zero emits a KeyPressEvent, and every modifier flags-changed whose mapped
bit is set — in particular one for a key physically held across the
boundary — emits a KeyPressEvent. -/
theorem C6_stop_start_resets_press_state (l : TSListener) (ns : NativeState)
    (hflag : l.tsIsListeningFlag = true)
    (hmod : l.nativeModule = some ns)
    (hns : ns.isListening = true) :
    ((tsStart true true (tsStop StopRaise.noRaise l).1).1.nativeModule = some startedState ∧
      startedState.lastEventTime = 0 ∧ startedState.lastModifierFlags = 0) ∧
    (∀ e : NSEvent, isModifierKeyCode e.keyCode = false →
      e.type = NSEventType.keyDown → dupWindow ≤ e.timestamp →
      (SafeHandleKeyEvent startedState e).2 = some ⟨e.keyCode, e.modifierFlags⟩) ∧
    (∀ e : NSEvent, e.type = NSEventType.flagsChanged →
      ∀ m, modifierMaskFor e.keyCode = some m →
        isModifierKeyPressed e.modifierFlags m = true →
        (SafeHandleKeyEvent startedState e).2 = some ⟨e.keyCode, e.modifierFlags⟩) := by
  refine ⟨⟨?_, rfl, rfl⟩, ?_, ?_⟩
  · obtain ⟨flag, nm⟩ := l
    simp only at hflag hmod
    subst hflag
    subst hmod
    simp [tsStop, nativeStop, hns, tsStart, nativeStart, startedState_def]
  · intro e hk hty hw
    have hnw : ¬e.timestamp < dupWindow := by
      simp only [dupWindow] at hw ⊢
      omega
    rw [startedState_def]
    simp [SafeHandleKeyEvent, hk, hty, hnw]
  · intro e hty m hm hbit
    have hk := modifierMaskFor_code hm
    have hm0 := modifierMaskFor_pos hm
    have hwas : isModifierKeyPressed 0 m = false := by
      simp only [isModifierKeyPressed, Nat.zero_and, beq_eq_false_iff_ne, ne_eq]
      omega
    rw [startedState_def]
    simp [SafeHandleKeyEvent, hk, hty, hm, hwas, hbit]

/-- Witness for C6: the started wrapper, stopped and restarted, carries the
reset native state. -/
theorem C6_stop_start_resets_press_state_witness :
    (tsStart true true (tsStop StopRaise.noRaise startedWrapper).1).1.nativeModule =
      some startedState :=
  (C6_stop_start_resets_press_state startedWrapper startedState
    rfl rfl rfl).1.1

/-- C7: start() called while already listening returns true without
registering OS resources a second time (the state is untouched), and
stop() called while already idle returns true, at the native layer and at
the wrapper layer alike — neither double call is an error. -/
theorem C7_double_start_double_stop (regLocal regGlobal : Bool) (r : StopRaise)
    (ns : NativeState) (l : TSListener) :
    (ns.isListening = true →
      nativeStart regLocal regGlobal ns = (ns, NapiResult.ok true)) ∧
    (ns.isListening = false →
      nativeStop r ns = (ns, NapiResult.ok true)) ∧
    (l.tsIsListeningFlag = true → tsStart regLocal regGlobal l = (l, true)) ∧
    (l.tsIsListeningFlag = false → tsStop r l = (l, true)) := by
  refine ⟨fun h => ?_, fun h => ?_, fun h => ?_, fun h => ?_⟩
  · simp [nativeStart, h]
  · simp [nativeStop, h]
  · simp [tsStart, h]
  · simp [tsStop, h]

/-- Witness for C7: a second start on the started native state and a stop
on a freshly constructed (idle) wrapper are both no-op successes. -/
theorem C7_double_start_double_stop_witness :
    nativeStart true true startedState = (startedState, NapiResult.ok true) ∧
    tsStop StopRaise.noRaise (mkKeyListener true true) = (mkKeyListener true true, true) :=
  ⟨(C7_double_start_double_stop true true StopRaise.noRaise startedState
      (mkKeyListener true true)).1 rfl,
   (C7_double_start_double_stop true true StopRaise.noRaise startedState
      (mkKeyListener true true)).2.2.2 rfl⟩

/-- C8: on a non-macOS platform the native module is never loaded, and any
sequence of start() / stop() calls leaves the wrapper unchanged with every
start() resolving false, every stop() returning true, and isListening()
false throughout; in the embedding every operation is a total function —
the wrapper catches all errors — so nothing is raised to the consumer. -/
theorem C8_non_darwin_always_unavailable (found : Bool) (ops : List TSOp) :
    (mkKeyListener false found).nativeModule = none ∧
    runOps (mkKeyListener false found) ops =
      (mkKeyListener false found,
        ops.map (fun op => match op with
          | TSOp.start _ _ => false
          | TSOp.stop _ => true)) ∧
    tsIsListening (runOps (mkKeyListener false found) ops).1 = false := by
  have hmk : mkKeyListener false found = ⟨false, none⟩ := rfl
  have hrun : ∀ os : List TSOp, runOps (⟨false, none⟩ : TSListener) os =
      ((⟨false, none⟩ : TSListener), os.map (fun op => match op with
        | TSOp.start _ _ => false
        | TSOp.stop _ => true)) := by
    intro os
    induction os with
    | nil => rfl
    | cons op os ih =>
      cases op with
      | start a b => simp [runOps, tsStart, ih]
      | stop a => simp [runOps, tsStop, ih]
  refine ⟨by rw [hmk], ?_, ?_⟩
  · rw [hmk]
    exact hrun ops
  · rw [hmk, hrun ops]
    rfl

/-- C9: key codes 57 (Caps Lock) and 63 (Function) lie inside the modifier
range 54-63 but have no case in the key-code-to-mask switch, so the handler
returns without emitting and without changing state: no sequence of
transitions carrying only these key codes ever produces a KeyPressEvent. -/
theorem C9_caps_lock_fn_never_emit (s : NativeState) (es : List NSEvent)
    (h : ∀ e ∈ es, e.keyCode = 57 ∨ e.keyCode = 63) :
    processEvents s es = (s, []) := by
  induction es generalizing s with
  | nil => rfl
  | cons e es ih =>
    have he := h e (by simp)
    have hstep : SafeHandleKeyEvent s e = (s, none) := by
      obtain ⟨c, ty, t, f⟩ := e
      simp only at he
      rcases he with he | he <;> subst he <;>
        cases ty <;> simp [SafeHandleKeyEvent, isModifierKeyCode, modifierMaskFor]
    simp [processEvents, hstep, ih s (fun e' he' => h e' (by simp [he']))]

/-- Witness for C9: two flags-changed transitions for Caps Lock and
Function emit nothing and leave the started state unchanged. -/
theorem C9_caps_lock_fn_never_emit_witness :
    processEvents startedState
      [⟨57, NSEventType.flagsChanged, 0, 65536⟩,
       ⟨63, NSEventType.flagsChanged, 5, 8388608⟩] = (startedState, []) :=
  C9_caps_lock_fn_never_emit startedState
    [⟨57, NSEventType.flagsChanged, 0, 65536⟩,
     ⟨63, NSEventType.flagsChanged, 5, 8388608⟩] (by decide)

/-- C10: the duplicate-window timestamp is a single scalar shared by all
regular keys: it changes only when a regular-key keyDown is accepted (and
then becomes the timestamp of that event); after an accepted regular-key press,
a keyDown for any regular key — a different one included — arriving within
the window is dropped; and an event in the modifier range neither updates
the timestamp nor lets it influence the result. -/
theorem C10_shared_dedup_timestamp (s : NativeState) (e : NSEvent) :
    ((SafeHandleKeyEvent s e).1.lastEventTime = s.lastEventTime ∨
      (isModifierKeyCode e.keyCode = false ∧ e.type = NSEventType.keyDown ∧
        (SafeHandleKeyEvent s e).2.isSome = true ∧
        (SafeHandleKeyEvent s e).1.lastEventTime = e.timestamp)) ∧
    (∀ e2 : NSEvent, (SafeHandleKeyEvent s e).2.isSome = true →
      isModifierKeyCode e.keyCode = false →
      isModifierKeyCode e2.keyCode = false → e2.type = NSEventType.keyDown →
      e2.timestamp - e.timestamp < dupWindow →
      (processEvents s [e, e2]).2 = [⟨e.keyCode, e.modifierFlags⟩]) ∧
    (∀ t : ℤ, isModifierKeyCode e.keyCode = true →
      (SafeHandleKeyEvent { s with lastEventTime := t } e).1.lastEventTime = t ∧
      (SafeHandleKeyEvent { s with lastEventTime := t } e).2 =
        (SafeHandleKeyEvent s e).2) := by
  refine ⟨?_, ?_, ?_⟩
  · unfold SafeHandleKeyEvent
    split
    · exact Or.inl rfl
    · split
      · split
        · exact Or.inl rfl
        · split
          · exact Or.inl rfl
          · refine Or.inl ?_
            dsimp only
            split <;> rfl
      · split
        · exact Or.inl rfl
        · split
          · exact Or.inl rfl
          · rename_i hg hk hty hwin
            refine Or.inr ⟨by simpa using hk, by simpa using hty, rfl, rfl⟩
  · intro e2 hacc hk hk2 hty2 hwin
    have heq : SafeHandleKeyEvent s e =
        ({ s with lastEventTime := e.timestamp },
          some ⟨e.keyCode, e.modifierFlags⟩) := by
      unfold SafeHandleKeyEvent at hacc ⊢
      rw [hk] at hacc ⊢
      simp only [Bool.false_eq_true, if_false] at hacc ⊢
      split_ifs at hacc with h1 h2 h3
      · simp at hacc
      · simp at hacc
      · simp at hacc
      · rw [if_neg h1, if_neg h2, if_neg h3]
    have hdrop : SafeHandleKeyEvent { s with lastEventTime := e.timestamp } e2 =
        ({ s with lastEventTime := e.timestamp }, none) := by
      simp [SafeHandleKeyEvent, hk2, hty2, hwin]
    simp [processEvents, heq, hdrop]
  · intro t hk
    by_cases h1 : s.isListening = true
    · by_cases h2 : s.hasTsfn = true
      · by_cases hty : e.type = NSEventType.flagsChanged
        · cases hmm : modifierMaskFor e.keyCode with
          | none => simp [SafeHandleKeyEvent, h1, h2, hk, hty, hmm]
          | some m =>
            by_cases hwas : isModifierKeyPressed s.lastModifierFlags m = true
            · simp [SafeHandleKeyEvent, h1, h2, hk, hty, hmm, hwas]
            · by_cases hbit : isModifierKeyPressed e.modifierFlags m = true
              · simp [SafeHandleKeyEvent, h1, h2, hk, hty, hmm, hwas, hbit]
              · simp [SafeHandleKeyEvent, h1, h2, hk, hty, hmm, hwas, hbit]
        · simp [SafeHandleKeyEvent, h1, h2, hk, hty]
      · simp [SafeHandleKeyEvent, h2]
    · simp [SafeHandleKeyEvent, h1]

/-- Witness for C10: after an accepted down for key 0 at t = 20000 µs, a
down for the different key 1 at t = 25000 µs is dropped by the shared
window. -/
theorem C10_shared_dedup_timestamp_witness :
    (processEvents startedState
      [⟨0, NSEventType.keyDown, 20000, 0⟩,
       ⟨1, NSEventType.keyDown, 25000, 0⟩]).2 = [⟨0, 0⟩] :=
  (C10_shared_dedup_timestamp startedState ⟨0, NSEventType.keyDown, 20000, 0⟩).2.1
    ⟨1, NSEventType.keyDown, 25000, 0⟩ (by decide) (by decide) (by decide) rfl
    (by decide)

end KeyListenerModel
